import Mathlib

/-!
Subscription handlers of `support/notifications/subscription.go`.

A shallow embedding of the HTTP handlers that manage subscription records.

* The database client `dbc`, the configuration value `configuration.ReadMaxLimit`
  and the JSON decoder are the handler's collaborators; they are gathered in `Ctx`
  and every theorem quantifies over them.
* A handler is a function from the request and the store state to the final
  `Run`: the response writer, the store state and the list of store calls made,
  in order.
* Store reads are queries on the store state; only `AddSubscription`,
  `UpdateSubscription` and `DeleteSubscriptionBySlug` return a new store state.
* Go functions returning `(value, error)` are modelled as pairs whose second
  component is `none` for a `nil` error: the value is present also when the
  error is not `nil`, as in Go.
* Calls to `loggingClient` write to the log only and are left out.
-/

namespace Notifications

/-! ## Data model -/

/-- Modelled from the spec: the declaration of `models.Subscription` is not part of the
excerpt. The fields are those of the data model (slug, id, receiver, categories, labels);
the remaining descriptive fields are not interpreted by the handlers and are kept as one
field `Rest`. -/
structure Subscription where
  Slug : String
  ID : String
  Receiver : String
  Categories : List String
  Labels : List String
  Rest : String
deriving DecidableEq, Repr

/-- The zero value of `models.Subscription` (`var s models.Subscription`). -/
def Subscription.zero : Subscription :=
  { Slug := "", ID := "", Receiver := "", Categories := [], Labels := [], Rest := "" }

/-- A Go `error` value: the text returned by `err.Error()` and whether the value is the
sentinel `clients.ErrNotFound`, which is what `err == clients.ErrNotFound` tests. -/
structure GoError where
  msg : String
  isErrNotFound : Bool
deriving DecidableEq, Repr

/-- The method `err.Error()`. -/
def GoError.Error (e : GoError) : String := e.msg

/-! ## `net/http` -/

def MethodGet : String := "GET"
def MethodPut : String := "PUT"
def MethodPost : String := "POST"
def MethodDelete : String := "DELETE"

def StatusOK : Nat := 200
def StatusCreated : Nat := 201
def StatusBadRequest : Nat := 400
def StatusNotFound : Nat := 404
def StatusConflict : Nat := 409
def StatusRequestEntityTooLarge : Nat := 413
def StatusInternalServerError : Nat := 500
def StatusServiceUnavailable : Nat := 503

/-- A value given to `encode`: one subscription or a slice of subscriptions. -/
inductive Payload where
  | one (s : Subscription)
  | many (l : List Subscription)
deriving DecidableEq, Repr

/-- One write to the response body: raw bytes, or the JSON encoding of a payload. -/
inductive Chunk where
  | raw (bytes : String)
  | json (v : Payload)
deriving DecidableEq, Repr

/-- The state of an `http.ResponseWriter`: the header map, the status code once the header
has been written, and the writes to the body in order. -/
structure ResponseWriter where
  header : List (String × String)
  status : Option Nat
  body : List Chunk
deriving DecidableEq, Repr

/-- A response writer nothing has been written to. -/
def ResponseWriter.fresh : ResponseWriter :=
  { header := [], status := none, body := [] }

/-- The call `w.Header().Set(key, value)`. -/
def ResponseWriter.headerSet (w : ResponseWriter) (key value : String) : ResponseWriter :=
  { w with header := w.header.filter (fun kv => kv.1 ≠ key) ++ [(key, value)] }

/-- The call `w.WriteHeader(code)`: only the first call fixes the status. -/
def ResponseWriter.WriteHeader (w : ResponseWriter) (code : Nat) : ResponseWriter :=
  match w.status with
  | some _ => w
  | none => { w with status := some code }

/-- A write of one chunk: writes the header with `StatusOK` first if it has not been
written. -/
def ResponseWriter.writeChunk (w : ResponseWriter) (c : Chunk) : ResponseWriter :=
  let w1 := w.WriteHeader StatusOK
  { w1 with body := w1.body ++ [c] }

/-- The call `w.Write([]byte(bytes))`. -/
def ResponseWriter.Write (w : ResponseWriter) (bytes : String) : ResponseWriter :=
  w.writeChunk (Chunk.raw bytes)

/-- The function `http.Error(w, error, code)`: sets the plain-text headers, writes the
header with `code` and prints the error text followed by a newline. -/
def httpError (w : ResponseWriter) (error : String) (code : Nat) : ResponseWriter :=
  let w1 := w.headerSet "Content-Type" "text/plain; charset=utf-8"
  let w2 := w1.headerSet "X-Content-Type-Options" "nosniff"
  let w3 := w2.WriteHeader code
  w3.Write (error ++ "\n")

/-- Modelled from the spec: the helper `encode(i, w)` of the package is not part of the
excerpt. It writes the JSON wire encoding of `i` to the response; the encoding itself is
not interpreted, so the write is recorded as a `Chunk.json`. -/
def encode (i : Payload) (w : ResponseWriter) : ResponseWriter :=
  w.writeChunk (Chunk.json i)

/-- An `*http.Request` as the handlers read it: the method, the route variables of
`mux.Vars(r)` and the body. -/
structure Request where
  Method : String
  vars : List (String × String)
  Body : String
deriving DecidableEq, Repr

/-- The lookup `vars[key]` in the map of `mux.Vars(r)`: a missing key gives `""`. -/
def Request.var (r : Request) (key : String) : String :=
  (r.vars.lookup key).getD ""

/-! ## The store client -/

/-- What `dbc.AddSubscription(&s)` leaves behind: the record behind the pointer, the
returned id, the returned error and the new store state. -/
structure AddResult (σ : Type) where
  s : Subscription
  id : String
  err : Option GoError
  db : σ

/-- The methods of the database client `dbc` the handlers call, over a store state `σ`. -/
structure DBClient (σ : Type) where
  Subscriptions : σ → List Subscription × Option GoError
  SubscriptionBySlug : σ → String → Subscription × Option GoError
  SubscriptionById : σ → String → Subscription × Option GoError
  SubscriptionByCategories : σ → List String → List Subscription × Option GoError
  SubscriptionByLabels : σ → List String → List Subscription × Option GoError
  SubscriptionByCategoriesLabels :
    σ → List String → List String → List Subscription × Option GoError
  SubscriptionByReceiver : σ → String → List Subscription × Option GoError
  AddSubscription : σ → Subscription → AddResult σ
  UpdateSubscription : σ → Subscription → Option GoError × σ
  DeleteSubscriptionBySlug : σ → String → Option GoError × σ

/-- One call of a method of `dbc`, with its arguments. -/
inductive DbCall where
  | Subscriptions
  | SubscriptionBySlug (slug : String)
  | SubscriptionById (id : String)
  | SubscriptionByCategories (categories : List String)
  | SubscriptionByLabels (labels : List String)
  | SubscriptionByCategoriesLabels (categories labels : List String)
  | SubscriptionByReceiver (receiver : String)
  | AddSubscription (s : Subscription)
  | UpdateSubscription (s : Subscription)
  | DeleteSubscriptionBySlug (slug : String)
deriving DecidableEq, Repr

/-- The package-level collaborators of the handlers: the client `dbc`, the value
`configuration.ReadMaxLimit` (a Go `int`), and the outcome of
`json.NewDecoder(r.Body).Decode(&s)` on a body: the record left in `s` and the error. -/
structure Ctx (σ : Type) where
  dbc : DBClient σ
  ReadMaxLimit : Int
  jsonDecode : String → Subscription × Option GoError

/-- The state threaded through a handler: the response writer, the store state and the
store calls made so far, oldest first. -/
structure Run (σ : Type) where
  w : ResponseWriter
  db : σ
  calls : List DbCall

/-- The state in which a handler starts on store state `db`. -/
def Run.start {σ : Type} (db : σ) : Run σ :=
  { w := ResponseWriter.fresh, db := db, calls := [] }

/-- Records one store call. -/
def Run.record {σ : Type} (st : Run σ) (c : DbCall) : Run σ :=
  { st with calls := st.calls ++ [c] }

/-! ## The handlers -/

def maxExceededString : String := "Error, exceeded the max limit as defined in config"
def applicationJson : String := "application/json; charset=utf-8"

/-- The function `strings.Split(s, sep)` for a separator of one character, on the
characters of the string: the text up to the first separator is a token and the rest is
split in the same way; a string without separator is one token. The separator used here,
the comma, is one byte of UTF-8 that is part of no other character, so splitting the
characters and splitting the bytes agree. -/
def split (sep : Char) : List Char → List (List Char)
  | [] => [[]]
  | c :: cs =>
    if c = sep then [] :: split sep cs
    else
      match split sep cs with
      | [] => [[c]]
      | t :: ts => (c :: t) :: ts

/-- The function `splitVars`: `strings.Split(vars, ",")`. -/
def splitVars (vars : String) : List String :=
  (split ',' vars.data).map String.mk

/-- The block shared by the lookups: a not-found sentinel is answered with
`StatusNotFound`, any other error with `StatusInternalServerError` and its text. -/
def lookupError (w : ResponseWriter) (err : GoError) : ResponseWriter :=
  if err.isErrNotFound then httpError w "Subscription not found" StatusNotFound
  else httpError w err.Error StatusInternalServerError

def subscriptionHandler {σ : Type} (ctx : Ctx σ) (r : Request) (st : Run σ) : Run σ :=
  if r.Method = MethodGet then
    -- Get all subscriptions
    let res := ctx.dbc.Subscriptions st.db
    let st1 := st.record DbCall.Subscriptions
    match res.2 with
    | some err => { st1 with w := httpError st1.w err.Error StatusServiceUnavailable }
    | none =>
      -- Check max limit
      if (res.1.length : Int) > ctx.ReadMaxLimit then
        { st1 with w := httpError st1.w maxExceededString StatusRequestEntityTooLarge }
      else
        let w1 := st1.w.headerSet "Content-Type" "application/json; charset=utf-8"
        { st1 with w := encode (Payload.many res.1) w1 }
  else if r.Method = MethodPut then
    -- the error of Decode is overwritten by the next assignment to err
    let s := (ctx.jsonDecode r.Body).1
    -- Check if the subscription exists
    let res := ctx.dbc.SubscriptionBySlug st.db s.Slug
    let st1 := st.record (DbCall.SubscriptionBySlug s.Slug)
    match res.2 with
    | some err => { st1 with w := lookupError st1.w err }
    | none =>
      let s2 := s
      let upd := ctx.dbc.UpdateSubscription st1.db s2
      let st2 := { st1.record (DbCall.UpdateSubscription s2) with db := upd.2 }
      match upd.1 with
      | some err => { st2 with w := httpError st2.w err.Error StatusInternalServerError }
      | none =>
        let w1 := st2.w.headerSet "Content-Type" "application/json"
        let w2 := w1.WriteHeader StatusOK
        { st2 with w := w2.Write "true" }
  else if r.Method = MethodPost then
    let dec := ctx.jsonDecode r.Body
    match dec.2 with
    | some err => { st with w := httpError st.w err.Error StatusBadRequest }
    | none =>
      let add := ctx.dbc.AddSubscription st.db dec.1
      let st1 := { st.record (DbCall.AddSubscription dec.1) with db := add.db }
      match add.err with
      | some err => { st1 with w := httpError st1.w err.Error StatusConflict }
      | none =>
        let w1 := st1.w.WriteHeader StatusCreated
        { st1 with w := w1.Write add.s.Slug }
  else st

def subscriptionByIDHandler {σ : Type} (ctx : Ctx σ) (r : Request) (st : Run σ) : Run σ :=
  if r.Method = MethodGet then
    let res := ctx.dbc.SubscriptionById st.db (r.var "id")
    let st1 := st.record (DbCall.SubscriptionById (r.var "id"))
    match res.2 with
    | some err => { st1 with w := lookupError st1.w err }
    | none => { st1 with w := encode (Payload.one res.1) st1.w }
  else st

def subscriptionsBySlugHandler {σ : Type} (ctx : Ctx σ) (r : Request) (st : Run σ) : Run σ :=
  let slug := r.var "slug"
  if r.Method = MethodGet then
    let res := ctx.dbc.SubscriptionBySlug st.db slug
    let st1 := st.record (DbCall.SubscriptionBySlug slug)
    match res.2 with
    | some err =>
      let w1 := lookupError st1.w err
      let w2 := w1.headerSet "Content-Type" applicationJson
      { st1 with w := encode (Payload.one res.1) w2 }
    | none => { st1 with w := encode (Payload.one res.1) st1.w }
  else if r.Method = MethodDelete then
    let res := ctx.dbc.SubscriptionBySlug st.db slug
    let st1 := st.record (DbCall.SubscriptionBySlug slug)
    match res.2 with
    | some err => { st1 with w := lookupError st1.w err }
    | none =>
      let del := ctx.dbc.DeleteSubscriptionBySlug st1.db slug
      let st2 := { st1.record (DbCall.DeleteSubscriptionBySlug slug) with db := del.2 }
      match del.1 with
      | some err => { st2 with w := httpError st2.w err.Error StatusInternalServerError }
      | none =>
        let w1 := st2.w.headerSet "Content-Type" "application/json"
        let w2 := w1.WriteHeader StatusOK
        { st2 with w := w2.Write "true" }
  else st

def subscriptionsByCategoriesHandler {σ : Type} (ctx : Ctx σ) (r : Request) (st : Run σ) :
    Run σ :=
  if r.Method = MethodGet then
    let categories := splitVars (r.var "categories")
    let res := ctx.dbc.SubscriptionByCategories st.db categories
    let st1 := st.record (DbCall.SubscriptionByCategories categories)
    match res.2 with
    | some err => { st1 with w := lookupError st1.w err }
    | none => { st1 with w := encode (Payload.many res.1) st1.w }
  else st

def subscriptionsByLabelsHandler {σ : Type} (ctx : Ctx σ) (r : Request) (st : Run σ) :
    Run σ :=
  if r.Method = MethodGet then
    let labels := splitVars (r.var "labels")
    let res := ctx.dbc.SubscriptionByLabels st.db labels
    let st1 := st.record (DbCall.SubscriptionByLabels labels)
    match res.2 with
    | some err => { st1 with w := lookupError st1.w err }
    | none => { st1 with w := encode (Payload.many res.1) st1.w }
  else st

def subscriptionsByCategoriesLabelsHandler {σ : Type} (ctx : Ctx σ) (r : Request)
    (st : Run σ) : Run σ :=
  if r.Method = MethodGet then
    let labels := splitVars (r.var "labels")
    let categories := splitVars (r.var "categories")
    let res := ctx.dbc.SubscriptionByCategoriesLabels st.db categories labels
    let st1 := st.record (DbCall.SubscriptionByCategoriesLabels categories labels)
    match res.2 with
    | some err => { st1 with w := lookupError st1.w err }
    | none => { st1 with w := encode (Payload.many res.1) st1.w }
  else st

def subscriptionsByReceiverHandler {σ : Type} (ctx : Ctx σ) (r : Request) (st : Run σ) :
    Run σ :=
  if r.Method = MethodGet then
    let res := ctx.dbc.SubscriptionByReceiver st.db (r.var "receiver")
    let st1 := st.record (DbCall.SubscriptionByReceiver (r.var "receiver"))
    match res.2 with
    | some err => { st1 with w := lookupError st1.w err }
    | none => { st1 with w := encode (Payload.many res.1) st1.w }
  else st

/-! ## Test doubles -/

/-- A not-found sentinel for the test doubles. -/
def errNotFound : GoError := { msg := "Item not found", isErrNotFound := true }

/-- A client with scripted answers: every read answers `(subs, err)` or `(one, err)`,
`AddSubscription` leaves the record as it is and answers `(id, err)`, the other writes
answer `err`. -/
def stubClient (subs : List Subscription) (one : Subscription) (id : String)
    (err : Option GoError) : DBClient Unit where
  Subscriptions _ := (subs, err)
  SubscriptionBySlug _ _ := (one, err)
  SubscriptionById _ _ := (one, err)
  SubscriptionByCategories _ _ := (subs, err)
  SubscriptionByLabels _ _ := (subs, err)
  SubscriptionByCategoriesLabels _ _ _ := (subs, err)
  SubscriptionByReceiver _ _ := (subs, err)
  AddSubscription db s := { s := s, id := id, err := err, db := db }
  UpdateSubscription db _ := (err, db)
  DeleteSubscriptionBySlug db _ := (err, db)

/-- An in-memory client: the store state is the list of records. Lookups of an absent
key answer the zero record with the not-found sentinel; adding a record whose slug is
taken is refused. -/
def memClient : DBClient (List Subscription) where
  Subscriptions db := (db, none)
  SubscriptionBySlug db slug :=
    match db.find? (fun s => s.Slug = slug) with
    | some s => (s, none)
    | none => (Subscription.zero, some errNotFound)
  SubscriptionById db id :=
    match db.find? (fun s => s.ID = id) with
    | some s => (s, none)
    | none => (Subscription.zero, some errNotFound)
  SubscriptionByCategories db cs := (db.filter (fun s => s.Categories.any (cs.contains ·)), none)
  SubscriptionByLabels db ls := (db.filter (fun s => s.Labels.any (ls.contains ·)), none)
  SubscriptionByCategoriesLabels db cs ls :=
    (db.filter (fun s => s.Categories.any (cs.contains ·) && s.Labels.any (ls.contains ·)), none)
  SubscriptionByReceiver db rc := (db.filter (fun s => s.Receiver = rc), none)
  AddSubscription db s :=
    if db.any (fun x => x.Slug = s.Slug) then
      { s := s, id := "", err := some { msg := "duplicate slug", isErrNotFound := false },
        db := db }
    else
      let s1 := { s with ID := "id-" ++ s.Slug }
      { s := s1, id := s1.ID, err := none, db := db ++ [s1] }
  UpdateSubscription db s := (none, db.map (fun x => if x.Slug = s.Slug then s else x))
  DeleteSubscriptionBySlug db slug := (none, db.filter (fun x => x.Slug ≠ slug))

/-- A decoder for the test doubles: it accepts the one document `"sub-one"` and fails on
every other body, leaving the record at its zero value. -/
def stubDecode (good : Subscription) (body : String) : Subscription × Option GoError :=
  if body = "sub-one" then (good, none)
  else (Subscription.zero, some { msg := "invalid character", isErrNotFound := false })

/-- A sample record. -/
def sampleSub : Subscription :=
  { Slug := "s1", ID := "", Receiver := "ops", Categories := ["temp"],
    Labels := ["critical"], Rest := "email" }

/-- A request with the given method, route variables and body. -/
def mkRequest (method : String) (vars : List (String × String)) (body : String) : Request :=
  { Method := method, vars := vars, Body := body }

/-- The collaborators of the handlers over the scripted client. -/
def stubCtx (subs : List Subscription) (one : Subscription) (id : String)
    (err : Option GoError) (limit : Int) : Ctx Unit :=
  { dbc := stubClient subs one id err, ReadMaxLimit := limit,
    jsonDecode := stubDecode sampleSub }

/-- The collaborators of the handlers over the in-memory client, with ceiling 10. -/
def memCtx : Ctx (List Subscription) :=
  { dbc := memClient, ReadMaxLimit := 10, jsonDecode := stubDecode sampleSub }

/-- The contract of a query on the final state `out` of its handler, for the store call
`call` whose answer is `(val, err)`: the handler made that one store call and left the
store state `db`; the status is `404` exactly when the error is the not-found sentinel,
`500` exactly when it is another error, and without error the response is `200` with
the encoding of `val` as its body. -/
def ClassifiesAnswer {σ : Type} (out : Run σ) (db : σ) (call : DbCall) (val : Payload)
    (err : Option GoError) : Prop :=
  out.calls = [call] ∧ out.db = db ∧
  (out.w.status = some StatusNotFound ↔ ∃ e, err = some e ∧ e.isErrNotFound = true) ∧
  (out.w.status = some StatusInternalServerError
    ↔ ∃ e, err = some e ∧ e.isErrNotFound = false) ∧
  (err = none → out.w.status = some StatusOK ∧ out.w.body = [Chunk.json val])

/-- The inverse of `split`: the tokens with the separator between neighbours. -/
def unsplit (sep : Char) : List (List Char) → List Char
  | [] => []
  | [t] => t
  | t :: u :: ts => t ++ sep :: unsplit sep (u :: ts)

/-! ## Theorems -/

theorem httpError_fresh (error : String) (code : Nat) :
    httpError ResponseWriter.fresh error code =
      { header := [("Content-Type", "text/plain; charset=utf-8"),
                   ("X-Content-Type-Options", "nosniff")],
        status := some code,
        body := [Chunk.raw (error ++ "\n")] } := by
  simp [httpError, ResponseWriter.fresh, ResponseWriter.headerSet, ResponseWriter.WriteHeader,
    ResponseWriter.Write, ResponseWriter.writeChunk]

/-- C1. ListAll (GET of `subscriptionHandler`), when the store call succeeds with the
listing `L`: the response is `413 Request Entity Too Large` if and only if
`len(L) > ReadMaxLimit`, and then the body holds the error text only; when
`len(L) <= ReadMaxLimit` the response is `200` and the body is the encoding of exactly `L`.
With ceiling 10, 10 records succeed and 11 records fail. One store call is made and the
store state is unchanged. -/
theorem C1_listAll {σ : Type} (ctx : Ctx σ) (r : Request) (db : σ) (L : List Subscription)
    (hM : r.Method = MethodGet) (hS : ctx.dbc.Subscriptions db = (L, none)) :
    ((subscriptionHandler ctx r (Run.start db)).w.status = some StatusRequestEntityTooLarge
        ↔ (L.length : Int) > ctx.ReadMaxLimit) ∧
    ((L.length : Int) > ctx.ReadMaxLimit →
      (subscriptionHandler ctx r (Run.start db)).w.body
        = [Chunk.raw (maxExceededString ++ "\n")]) ∧
    ((L.length : Int) ≤ ctx.ReadMaxLimit →
      (subscriptionHandler ctx r (Run.start db)).w.status = some StatusOK ∧
      (subscriptionHandler ctx r (Run.start db)).w.body = [Chunk.json (Payload.many L)]) ∧
    (ctx.ReadMaxLimit = 10 → L.length = 10 →
      (subscriptionHandler ctx r (Run.start db)).w.status = some StatusOK ∧
      (subscriptionHandler ctx r (Run.start db)).w.body = [Chunk.json (Payload.many L)]) ∧
    (ctx.ReadMaxLimit = 10 → L.length = 11 →
      (subscriptionHandler ctx r (Run.start db)).w.status
        = some StatusRequestEntityTooLarge) ∧
    (subscriptionHandler ctx r (Run.start db)).calls = [DbCall.Subscriptions] ∧
    (subscriptionHandler ctx r (Run.start db)).db = db := by
  by_cases h : (L.length : Int) > ctx.ReadMaxLimit
  · have h3 : ¬ (ctx.ReadMaxLimit = 10 ∧ L.length = 10) := by
      rintro ⟨h4, h5⟩
      rw [h4, h5] at h
      exact absurd h (by decide)
    have h6 : ctx.ReadMaxLimit = 10 → L.length = 10 → False := fun a b => h3 ⟨a, b⟩
    simp [subscriptionHandler, hM, hS, h, Run.start, Run.record, httpError_fresh]
    intro a b
    exact (h6 a b).elim
  · have h2 : (L.length : Int) ≤ ctx.ReadMaxLimit := not_lt.mp h
    have h6 : ctx.ReadMaxLimit = 10 → L.length = 11 → False := by
      intro a b
      rw [a, b] at h
      exact h (by decide)
    simp [subscriptionHandler, hM, hS, h, h2, Run.start, Run.record, encode,
      ResponseWriter.fresh, ResponseWriter.headerSet, ResponseWriter.WriteHeader,
      ResponseWriter.writeChunk, StatusOK, StatusRequestEntityTooLarge]
    intro a b
    exact (h6 a b).elim

/-- Witness of C1: ceiling 10 and a store that lists 10 records. -/
theorem C1_listAll_witness :
    (subscriptionHandler (stubCtx (List.replicate 10 sampleSub) sampleSub "" none 10)
        (mkRequest MethodGet [] "") (Run.start ())).w.status = some StatusOK ∧
    (subscriptionHandler (stubCtx (List.replicate 10 sampleSub) sampleSub "" none 10)
        (mkRequest MethodGet [] "") (Run.start ())).w.body
      = [Chunk.json (Payload.many (List.replicate 10 sampleSub))] :=
  (C1_listAll (stubCtx (List.replicate 10 sampleSub) sampleSub "" none 10)
    (mkRequest MethodGet [] "") () (List.replicate 10 sampleSub) rfl rfl).2.2.1 (by decide)

/-- C2. Update (PUT of `subscriptionHandler`) is a full replace: when the lookup of the
slug of the candidate `S'` answers an existing record `E`, the store calls are the lookup
followed by `UpdateSubscription(S')`: the record handed to the update is `S'` itself,
whatever `E` is, and the store state is the one the update leaves. -/
theorem C2_update_full_replace {σ : Type} (ctx : Ctx σ) (r : Request) (db : σ)
    (S' E : Subscription) (derr : Option GoError)
    (hM : r.Method = MethodPut) (hD : ctx.jsonDecode r.Body = (S', derr))
    (hL : ctx.dbc.SubscriptionBySlug db S'.Slug = (E, none)) :
    (subscriptionHandler ctx r (Run.start db)).calls
      = [DbCall.SubscriptionBySlug S'.Slug, DbCall.UpdateSubscription S'] ∧
    (subscriptionHandler ctx r (Run.start db)).db = (ctx.dbc.UpdateSubscription db S').2 := by
  have hne : ¬ (MethodPut = MethodGet) := by decide
  cases hU : (ctx.dbc.UpdateSubscription db S').1 <;>
    simp [subscriptionHandler, hM, hne, hD, hL, hU, Run.start, Run.record]

/-- Witness of C2: the in-memory store holds a record with slug `s1` and other fields;
the update is called with the candidate. -/
theorem C2_update_full_replace_witness :
    (subscriptionHandler memCtx (mkRequest MethodPut [] "sub-one")
        (Run.start [{ sampleSub with Receiver := "old", Labels := ["a", "b"] }])).calls
      = [DbCall.SubscriptionBySlug "s1", DbCall.UpdateSubscription sampleSub] ∧
    (subscriptionHandler memCtx (mkRequest MethodPut [] "sub-one")
        (Run.start [{ sampleSub with Receiver := "old", Labels := ["a", "b"] }])).db
      = [sampleSub] :=
  C2_update_full_replace memCtx (mkRequest MethodPut [] "sub-one")
    [{ sampleSub with Receiver := "old", Labels := ["a", "b"] }] sampleSub
    { sampleSub with Receiver := "old", Labels := ["a", "b"] } none rfl rfl rfl

/-- C3. Update (PUT of `subscriptionHandler`) of a candidate `S'` whose slug the lookup
reports as not found: the response is `404 Not Found`, the only store call is the lookup
by the slug of `S'`, no update call is made and the store state is unchanged. -/
theorem C3_update_not_found {σ : Type} (ctx : Ctx σ) (r : Request) (db : σ)
    (S' E : Subscription) (derr : Option GoError) (e : GoError)
    (hM : r.Method = MethodPut) (hD : ctx.jsonDecode r.Body = (S', derr))
    (hL : ctx.dbc.SubscriptionBySlug db S'.Slug = (E, some e))
    (hE : e.isErrNotFound = true) :
    (subscriptionHandler ctx r (Run.start db)).w.status = some StatusNotFound ∧
    (subscriptionHandler ctx r (Run.start db)).w.body
      = [Chunk.raw "Subscription not found\n"] ∧
    (subscriptionHandler ctx r (Run.start db)).calls = [DbCall.SubscriptionBySlug S'.Slug] ∧
    (∀ s, DbCall.UpdateSubscription s ∉ (subscriptionHandler ctx r (Run.start db)).calls) ∧
    (subscriptionHandler ctx r (Run.start db)).db = db := by
  have hne : ¬ (MethodPut = MethodGet) := by decide
  simp [subscriptionHandler, hM, hne, hD, hL, hE, lookupError, Run.start, Run.record,
    httpError_fresh]

/-- Witness of C3: the in-memory store holds no record with the slug of the candidate. -/
theorem C3_update_not_found_witness :
    (subscriptionHandler memCtx (mkRequest MethodPut [] "sub-one")
        (Run.start [{ sampleSub with Slug := "other" }])).w.status = some StatusNotFound ∧
    (subscriptionHandler memCtx (mkRequest MethodPut [] "sub-one")
        (Run.start [{ sampleSub with Slug := "other" }])).db
      = [{ sampleSub with Slug := "other" }] :=
  have h := C3_update_not_found memCtx (mkRequest MethodPut [] "sub-one")
    [{ sampleSub with Slug := "other" }] sampleSub Subscription.zero none errNotFound
    rfl rfl rfl rfl
  ⟨h.1, h.2.2.2.2⟩

/-- C4. DeleteBySlug (DELETE of `subscriptionsBySlugHandler`): the first store call is the
lookup of the slug of the request; the delete call is made, for that same slug, if and
only if that lookup succeeded, and no other store call is made. When the lookup reports
not found the response is `404 Not Found`, the only store call is the lookup and the store
state is unchanged. When the lookup and the delete succeed the response is `200` with the
body `true`. -/
theorem C4_delete_by_slug {σ : Type} (ctx : Ctx σ) (r : Request) (db : σ)
    (hM : r.Method = MethodDelete) :
    ((∃ s, DbCall.DeleteSubscriptionBySlug s ∈
          (subscriptionsBySlugHandler ctx r (Run.start db)).calls)
        ↔ (ctx.dbc.SubscriptionBySlug db (r.var "slug")).2 = none) ∧
    ((ctx.dbc.SubscriptionBySlug db (r.var "slug")).2 = none →
      (subscriptionsBySlugHandler ctx r (Run.start db)).calls
        = [DbCall.SubscriptionBySlug (r.var "slug"),
           DbCall.DeleteSubscriptionBySlug (r.var "slug")] ∧
      (subscriptionsBySlugHandler ctx r (Run.start db)).db
        = (ctx.dbc.DeleteSubscriptionBySlug db (r.var "slug")).2) ∧
    ((ctx.dbc.SubscriptionBySlug db (r.var "slug")).2 ≠ none →
      (subscriptionsBySlugHandler ctx r (Run.start db)).calls
        = [DbCall.SubscriptionBySlug (r.var "slug")] ∧
      (subscriptionsBySlugHandler ctx r (Run.start db)).db = db) ∧
    (∀ e, (ctx.dbc.SubscriptionBySlug db (r.var "slug")).2 = some e →
      e.isErrNotFound = true →
      (subscriptionsBySlugHandler ctx r (Run.start db)).w.status = some StatusNotFound ∧
      (subscriptionsBySlugHandler ctx r (Run.start db)).w.body
        = [Chunk.raw "Subscription not found\n"]) ∧
    ((ctx.dbc.SubscriptionBySlug db (r.var "slug")).2 = none →
      (ctx.dbc.DeleteSubscriptionBySlug db (r.var "slug")).1 = none →
      (subscriptionsBySlugHandler ctx r (Run.start db)).w.status = some StatusOK ∧
      (subscriptionsBySlugHandler ctx r (Run.start db)).w.body = [Chunk.raw "true"]) := by
  have hne : ¬ (MethodDelete = MethodGet) := by decide
  cases hL : (ctx.dbc.SubscriptionBySlug db (r.var "slug")).2 with
  | some e =>
    simp [subscriptionsBySlugHandler, hM, hne, hL, Run.start, Run.record]
    intro hE
    simp [lookupError, hE, httpError_fresh]
  | none =>
    cases hD : (ctx.dbc.DeleteSubscriptionBySlug db (r.var "slug")).1 <;>
      simp [subscriptionsBySlugHandler, hM, hne, hL, hD, Run.start, Run.record,
        ResponseWriter.fresh, ResponseWriter.headerSet, ResponseWriter.WriteHeader,
        ResponseWriter.Write, ResponseWriter.writeChunk]

/-- Witness of C4: deleting a slug the in-memory store holds removes the record and
answers `200` with the body `true`. -/
theorem C4_delete_by_slug_witness :
    (subscriptionsBySlugHandler memCtx (mkRequest MethodDelete [("slug", "s1")] "")
        (Run.start [sampleSub])).w.status = some StatusOK ∧
    (subscriptionsBySlugHandler memCtx (mkRequest MethodDelete [("slug", "s1")] "")
        (Run.start [sampleSub])).w.body = [Chunk.raw "true"] :=
  (C4_delete_by_slug memCtx (mkRequest MethodDelete [("slug", "s1")] "") [sampleSub]
    rfl).2.2.2.2 (by decide) (by decide)

/-- C5, the claim fails: a store whose add call fails with an error that is not about a
duplicate slug (`connection refused`) is answered with `409 Conflict`, not with
`500 Internal Server Error`. -/
theorem C5_other_failure_is_conflict :
    (subscriptionHandler
        (stubCtx [] sampleSub "" (some { msg := "connection refused", isErrNotFound := false })
          10)
        (mkRequest MethodPost [] "sub-one") (Run.start ())).w.status = some StatusConflict ∧
    (subscriptionHandler
        (stubCtx [] sampleSub "" (some { msg := "connection refused", isErrNotFound := false })
          10)
        (mkRequest MethodPost [] "sub-one") (Run.start ())).w.status
      ≠ some StatusInternalServerError := by
  decide

/-- C5, amended. Create (POST of `subscriptionHandler`): for every decoded candidate,
whatever the error of the add call of the store is (a duplicate slug or any other
reason), the response is `409 Conflict` with the text of the error; the add call is the
only store call. -/
theorem C5_create_failure_conflict {σ : Type} (ctx : Ctx σ) (r : Request) (db : σ)
    (S : Subscription) (e : GoError)
    (hM : r.Method = MethodPost) (hD : ctx.jsonDecode r.Body = (S, none))
    (hA : (ctx.dbc.AddSubscription db S).err = some e) :
    (subscriptionHandler ctx r (Run.start db)).w.status = some StatusConflict ∧
    (subscriptionHandler ctx r (Run.start db)).w.body = [Chunk.raw (e.Error ++ "\n")] ∧
    (subscriptionHandler ctx r (Run.start db)).calls = [DbCall.AddSubscription S] := by
  have hne1 : ¬ (MethodPost = MethodGet) := by decide
  have hne2 : ¬ (MethodPost = MethodPut) := by decide
  simp [subscriptionHandler, hM, hne1, hne2, hD, hA, Run.start, Run.record, httpError_fresh]

/-- Witness of C5, amended: the in-memory store refuses a slug that is taken. -/
theorem C5_create_failure_conflict_witness :
    (subscriptionHandler memCtx (mkRequest MethodPost [] "sub-one")
        (Run.start [sampleSub])).w.status = some StatusConflict :=
  (C5_create_failure_conflict memCtx (mkRequest MethodPost [] "sub-one") [sampleSub]
    sampleSub { msg := "duplicate slug", isErrNotFound := false } rfl rfl rfl).1

/-- C6, the code at the failing input: a PUT whose body cannot be decoded is not answered
with `400 Bad Request`. The error of the decoder is dropped, the store is asked for the
slug of the zero record, and the answer is that of the lookup: `404 Not Found` when the
store has no such record, and when it has one the record is replaced by the zero record
and the answer is `200`. The POST with the same body is answered with `400` and makes no
store call. -/
theorem C6_put_drops_decode_error :
    (memCtx.jsonDecode "not json").2 ≠ none ∧
    (subscriptionHandler memCtx (mkRequest MethodPut [] "not json")
        (Run.start [sampleSub])).w.status = some StatusNotFound ∧
    (subscriptionHandler memCtx (mkRequest MethodPut [] "not json")
        (Run.start [sampleSub])).calls = [DbCall.SubscriptionBySlug ""] ∧
    (subscriptionHandler memCtx (mkRequest MethodPut [] "not json")
        (Run.start [{ sampleSub with Slug := "" }])).w.status = some StatusOK ∧
    (subscriptionHandler memCtx (mkRequest MethodPut [] "not json")
        (Run.start [{ sampleSub with Slug := "" }])).calls
      = [DbCall.SubscriptionBySlug "", DbCall.UpdateSubscription Subscription.zero] ∧
    (subscriptionHandler memCtx (mkRequest MethodPut [] "not json")
        (Run.start [{ sampleSub with Slug := "" }])).db = [Subscription.zero] ∧
    (subscriptionHandler memCtx (mkRequest MethodPost [] "not json")
        (Run.start [sampleSub])).w.status = some StatusBadRequest ∧
    (subscriptionHandler memCtx (mkRequest MethodPost [] "not json")
        (Run.start [sampleSub])).calls = [] := by
  decide

theorem lookupError_fresh (e : GoError) :
    lookupError { header := [], status := none, body := [] } e =
      { header := [("Content-Type", "text/plain; charset=utf-8"),
                   ("X-Content-Type-Options", "nosniff")],
        status := some (if e.isErrNotFound = true then StatusNotFound
                        else StatusInternalServerError),
        body := [Chunk.raw ((if e.isErrNotFound = true then "Subscription not found"
                             else e.Error) ++ "\n")] } := by
  have hf := httpError_fresh
  simp only [ResponseWriter.fresh] at hf
  cases h : e.isErrNotFound <;> simp [lookupError, h, hf]

theorem classifies_of_lookup {σ : Type} (db : σ) (call : DbCall) (val : Payload)
    (err : Option GoError) (out : Run σ) (hc : out.calls = [call]) (hd : out.db = db)
    (hs : out.w.status = match err with
      | some e => some (if e.isErrNotFound = true then StatusNotFound
                        else StatusInternalServerError)
      | none => some StatusOK)
    (hb : err = none → out.w.body = [Chunk.json val]) :
    ClassifiesAnswer out db call val err := by
  refine ⟨hc, hd, ?_, ?_, ?_⟩
  · cases err with
    | none => simp [hs, StatusNotFound, StatusOK]
    | some e =>
      cases h : e.isErrNotFound <;>
        simp [hs, h, StatusNotFound, StatusInternalServerError]
  · cases err with
    | none => simp [hs, StatusInternalServerError, StatusOK]
    | some e =>
      cases h : e.isErrNotFound <;>
        simp [hs, h, StatusNotFound, StatusInternalServerError]
  · intro h
    subst h
    exact ⟨by simp [hs], hb rfl⟩

/-- C7. Each of the six query operations (GET by id, by slug, by categories, by labels,
by categories and labels, by receiver) makes exactly one store call, with its selector
passed through unmodified (categories and labels each the comma split of their own route
variable, categories first and labels second), leaves the store state unchanged, and
classifies the answer of the store: `404 Not Found` if and only if the error is the
not-found sentinel, `500 Internal Server Error` if and only if it is any other error, and
otherwise `200` with the encoding of exactly the returned value. -/
theorem C7_queries_classify {σ : Type} (ctx : Ctx σ) (r : Request) (db : σ)
    (hM : r.Method = MethodGet) :
    ClassifiesAnswer (subscriptionByIDHandler ctx r (Run.start db)) db
      (DbCall.SubscriptionById (r.var "id"))
      (Payload.one (ctx.dbc.SubscriptionById db (r.var "id")).1)
      (ctx.dbc.SubscriptionById db (r.var "id")).2 ∧
    ClassifiesAnswer (subscriptionsBySlugHandler ctx r (Run.start db)) db
      (DbCall.SubscriptionBySlug (r.var "slug"))
      (Payload.one (ctx.dbc.SubscriptionBySlug db (r.var "slug")).1)
      (ctx.dbc.SubscriptionBySlug db (r.var "slug")).2 ∧
    ClassifiesAnswer (subscriptionsByCategoriesHandler ctx r (Run.start db)) db
      (DbCall.SubscriptionByCategories (splitVars (r.var "categories")))
      (Payload.many (ctx.dbc.SubscriptionByCategories db (splitVars (r.var "categories"))).1)
      (ctx.dbc.SubscriptionByCategories db (splitVars (r.var "categories"))).2 ∧
    ClassifiesAnswer (subscriptionsByLabelsHandler ctx r (Run.start db)) db
      (DbCall.SubscriptionByLabels (splitVars (r.var "labels")))
      (Payload.many (ctx.dbc.SubscriptionByLabels db (splitVars (r.var "labels"))).1)
      (ctx.dbc.SubscriptionByLabels db (splitVars (r.var "labels"))).2 ∧
    ClassifiesAnswer (subscriptionsByCategoriesLabelsHandler ctx r (Run.start db)) db
      (DbCall.SubscriptionByCategoriesLabels (splitVars (r.var "categories"))
        (splitVars (r.var "labels")))
      (Payload.many (ctx.dbc.SubscriptionByCategoriesLabels db
        (splitVars (r.var "categories")) (splitVars (r.var "labels"))).1)
      (ctx.dbc.SubscriptionByCategoriesLabels db
        (splitVars (r.var "categories")) (splitVars (r.var "labels"))).2 ∧
    ClassifiesAnswer (subscriptionsByReceiverHandler ctx r (Run.start db)) db
      (DbCall.SubscriptionByReceiver (r.var "receiver"))
      (Payload.many (ctx.dbc.SubscriptionByReceiver db (r.var "receiver")).1)
      (ctx.dbc.SubscriptionByReceiver db (r.var "receiver")).2 := by
  refine ⟨?_, ?_, ?_, ?_, ?_, ?_⟩
  · apply classifies_of_lookup
    · cases h : (ctx.dbc.SubscriptionById db (r.var "id")).2 <;>
        simp [subscriptionByIDHandler, hM, h, Run.start, Run.record]
    · cases h : (ctx.dbc.SubscriptionById db (r.var "id")).2 <;>
        simp [subscriptionByIDHandler, hM, h, Run.start, Run.record]
    · cases h : (ctx.dbc.SubscriptionById db (r.var "id")).2 <;>
        simp [subscriptionByIDHandler, hM, h, Run.start, Run.record, lookupError_fresh,
          encode, ResponseWriter.writeChunk, ResponseWriter.WriteHeader, ResponseWriter.fresh]
    · intro h
      simp [subscriptionByIDHandler, hM, h, Run.start, Run.record,
          encode, ResponseWriter.writeChunk, ResponseWriter.WriteHeader, ResponseWriter.fresh]
  · apply classifies_of_lookup
    · cases h : (ctx.dbc.SubscriptionBySlug db (r.var "slug")).2 <;>
        simp [subscriptionsBySlugHandler, hM, h, Run.start, Run.record]
    · cases h : (ctx.dbc.SubscriptionBySlug db (r.var "slug")).2 <;>
        simp [subscriptionsBySlugHandler, hM, h, Run.start, Run.record]
    · cases h : (ctx.dbc.SubscriptionBySlug db (r.var "slug")).2 <;>
        simp [subscriptionsBySlugHandler, hM, h, Run.start, Run.record, lookupError_fresh,
          encode, ResponseWriter.writeChunk, ResponseWriter.WriteHeader, ResponseWriter.fresh,
          ResponseWriter.headerSet]
    · intro h
      simp [subscriptionsBySlugHandler, hM, h, Run.start, Run.record,
          encode, ResponseWriter.writeChunk, ResponseWriter.WriteHeader, ResponseWriter.fresh]
  · apply classifies_of_lookup
    · cases h : (ctx.dbc.SubscriptionByCategories db (splitVars (r.var "categories"))).2 <;>
        simp [subscriptionsByCategoriesHandler, hM, h, Run.start, Run.record]
    · cases h : (ctx.dbc.SubscriptionByCategories db (splitVars (r.var "categories"))).2 <;>
        simp [subscriptionsByCategoriesHandler, hM, h, Run.start, Run.record]
    · cases h : (ctx.dbc.SubscriptionByCategories db (splitVars (r.var "categories"))).2 <;>
        simp [subscriptionsByCategoriesHandler, hM, h, Run.start, Run.record,
          lookupError_fresh, encode, ResponseWriter.writeChunk, ResponseWriter.WriteHeader,
          ResponseWriter.fresh]
    · intro h
      simp [subscriptionsByCategoriesHandler, hM, h, Run.start, Run.record,
          encode, ResponseWriter.writeChunk, ResponseWriter.WriteHeader, ResponseWriter.fresh]
  · apply classifies_of_lookup
    · cases h : (ctx.dbc.SubscriptionByLabels db (splitVars (r.var "labels"))).2 <;>
        simp [subscriptionsByLabelsHandler, hM, h, Run.start, Run.record]
    · cases h : (ctx.dbc.SubscriptionByLabels db (splitVars (r.var "labels"))).2 <;>
        simp [subscriptionsByLabelsHandler, hM, h, Run.start, Run.record]
    · cases h : (ctx.dbc.SubscriptionByLabels db (splitVars (r.var "labels"))).2 <;>
        simp [subscriptionsByLabelsHandler, hM, h, Run.start, Run.record,
          lookupError_fresh, encode, ResponseWriter.writeChunk, ResponseWriter.WriteHeader,
          ResponseWriter.fresh]
    · intro h
      simp [subscriptionsByLabelsHandler, hM, h, Run.start, Run.record,
          encode, ResponseWriter.writeChunk, ResponseWriter.WriteHeader, ResponseWriter.fresh]
  · apply classifies_of_lookup
    · cases h : (ctx.dbc.SubscriptionByCategoriesLabels db
          (splitVars (r.var "categories")) (splitVars (r.var "labels"))).2 <;>
        simp [subscriptionsByCategoriesLabelsHandler, hM, h, Run.start, Run.record]
    · cases h : (ctx.dbc.SubscriptionByCategoriesLabels db
          (splitVars (r.var "categories")) (splitVars (r.var "labels"))).2 <;>
        simp [subscriptionsByCategoriesLabelsHandler, hM, h, Run.start, Run.record]
    · cases h : (ctx.dbc.SubscriptionByCategoriesLabels db
          (splitVars (r.var "categories")) (splitVars (r.var "labels"))).2 <;>
        simp [subscriptionsByCategoriesLabelsHandler, hM, h, Run.start, Run.record,
          lookupError_fresh, encode, ResponseWriter.writeChunk, ResponseWriter.WriteHeader,
          ResponseWriter.fresh]
    · intro h
      simp [subscriptionsByCategoriesLabelsHandler, hM, h, Run.start, Run.record,
          encode, ResponseWriter.writeChunk, ResponseWriter.WriteHeader, ResponseWriter.fresh]
  · apply classifies_of_lookup
    · cases h : (ctx.dbc.SubscriptionByReceiver db (r.var "receiver")).2 <;>
        simp [subscriptionsByReceiverHandler, hM, h, Run.start, Run.record]
    · cases h : (ctx.dbc.SubscriptionByReceiver db (r.var "receiver")).2 <;>
        simp [subscriptionsByReceiverHandler, hM, h, Run.start, Run.record]
    · cases h : (ctx.dbc.SubscriptionByReceiver db (r.var "receiver")).2 <;>
        simp [subscriptionsByReceiverHandler, hM, h, Run.start, Run.record,
          lookupError_fresh, encode, ResponseWriter.writeChunk, ResponseWriter.WriteHeader,
          ResponseWriter.fresh]
    · intro h
      simp [subscriptionsByReceiverHandler, hM, h, Run.start, Run.record,
          encode, ResponseWriter.writeChunk, ResponseWriter.WriteHeader, ResponseWriter.fresh]

/-- Witness of C7: the in-memory store answers the lookup of slug `s1` with the record,
and the lookup by categories and labels receives `["temp", "x"]` and `["critical"]`. -/
theorem C7_queries_classify_witness :
    (subscriptionsBySlugHandler memCtx
        (mkRequest MethodGet [("slug", "s1"), ("categories", "temp,x"), ("labels", "critical")]
          "") (Run.start [sampleSub])).w.body = [Chunk.json (Payload.one sampleSub)] ∧
    (subscriptionsByCategoriesLabelsHandler memCtx
        (mkRequest MethodGet [("slug", "s1"), ("categories", "temp,x"), ("labels", "critical")]
          "") (Run.start [sampleSub])).calls
      = [DbCall.SubscriptionByCategoriesLabels ["temp", "x"] ["critical"]] :=
  have h := C7_queries_classify memCtx
    (mkRequest MethodGet [("slug", "s1"), ("categories", "temp,x"), ("labels", "critical")] "")
    [sampleSub] rfl
  ⟨(h.2.1.2.2.2.2 (by decide)).2, h.2.2.2.2.1.1⟩

theorem split_ne_nil (sep : Char) (l : List Char) : split sep l ≠ [] := by
  cases l with
  | nil => simp [split]
  | cons c cs =>
    by_cases h : c = sep
    · simp [split, h]
    · cases hs : split sep cs <;> simp [split, h, hs]

theorem split_length (sep : Char) (l : List Char) :
    (split sep l).length = l.count sep + 1 := by
  induction l with
  | nil => simp [split]
  | cons c cs ih =>
    by_cases h : c = sep
    · subst h
      simp [split, ih]
    · have h2 : ¬ ((c == sep) = true) := by simpa using h
      cases hs : split sep cs with
      | nil => exact absurd hs (split_ne_nil sep cs)
      | cons t ts =>
        rw [hs] at ih
        simp only [List.length_cons] at ih
        simp [split, h, hs, List.count_cons, h2, ih]

theorem split_no_sep (sep : Char) (l : List Char) : ∀ t ∈ split sep l, sep ∉ t := by
  induction l with
  | nil => simp [split]
  | cons c cs ih =>
    by_cases h : c = sep
    · intro t ht
      simp only [split, h, if_true, List.mem_cons] at ht
      rcases ht with ht | ht
      · subst ht
        simp
      · exact ih t ht
    · cases hs : split sep cs with
      | nil => exact absurd hs (split_ne_nil sep cs)
      | cons u us =>
        rw [hs] at ih
        intro t ht
        simp only [split, h, if_false, hs, List.mem_cons] at ht
        rcases ht with ht | ht
        · subst ht
          have hu := ih u (List.mem_cons_self u us)
          simp only [List.mem_cons, not_or]
          exact ⟨fun e => h e.symm, hu⟩
        · exact ih t (List.mem_cons_of_mem u ht)

theorem unsplit_append_head (sep : Char) (a b : List Char) (ts : List (List Char)) :
    unsplit sep ((a ++ b) :: ts) = a ++ unsplit sep (b :: ts) := by
  cases ts <;> simp [unsplit]

theorem unsplit_split (sep : Char) (l : List Char) : unsplit sep (split sep l) = l := by
  induction l with
  | nil => simp [split, unsplit]
  | cons c cs ih =>
    cases hs : split sep cs with
    | nil => exact absurd hs (split_ne_nil sep cs)
    | cons t ts =>
      rw [hs] at ih
      by_cases h : c = sep
      · simp [split, h, hs, unsplit, ih]
      · have h3 := unsplit_append_head sep [c] t ts
        simp only [List.singleton_append] at h3
        simp [split, h, hs, h3, ih]

theorem intercalate_go_mk (sep : Char) (ts : List (List Char)) :
    ∀ a : List Char,
      String.intercalate.go (String.mk a) (String.mk [sep]) (ts.map String.mk)
        = String.mk (unsplit sep (a :: ts)) := by
  induction ts with
  | nil => intro a; simp [String.intercalate.go, unsplit]
  | cons t ts ih =>
    intro a
    have happ : String.mk a ++ String.mk [sep] ++ String.mk t = String.mk (a ++ sep :: t) := by
      apply String.ext
      simp
    have h3 : unsplit sep ((a ++ sep :: t) :: ts) = a ++ sep :: unsplit sep (t :: ts) := by
      have h4 := unsplit_append_head sep (a ++ [sep]) t ts
      simpa using h4
    simp only [List.map_cons, String.intercalate.go, happ, ih, h3]
    simp [unsplit]

theorem intercalate_splitVars (s : String) : ",".intercalate (splitVars s) = s := by
  have hc : "," = String.mk [','] := rfl
  cases hs : split ',' s.data with
  | nil => exact absurd hs (split_ne_nil ',' s.data)
  | cons t ts =>
    have h := intercalate_go_mk ',' ts t
    rw [← hs, unsplit_split] at h
    simp only [splitVars, hs, List.map_cons, String.intercalate]
    rw [hc, h]

/-- C8. `splitVars` splits a selector on `,` and does nothing else:
`splitVars("a,b,c") = ["a","b","c"]`, `splitVars("") = [""]`, empty and repeated tokens and
blanks are kept in order (`"a,,b , a,a,"` gives `"a"`, `""`, `"b "`, `" a"`, `"a"`, `""`);
for every string the result is not empty, has one token more than the string has commas,
no token contains a comma, and joining the tokens with `,` gives the string back. -/
theorem C8_splitVars :
    splitVars "a,b,c" = ["a", "b", "c"] ∧
    splitVars "" = [""] ∧
    splitVars "a,,b , a,a," = ["a", "", "b ", " a", "a", ""] ∧
    ∀ s : String,
      splitVars s ≠ [] ∧
      (splitVars s).length = s.data.count ',' + 1 ∧
      (∀ t ∈ splitVars s, ',' ∉ t.data) ∧
      ",".intercalate (splitVars s) = s := by
  refine ⟨by decide, by decide, by decide, fun s => ⟨?_, ?_, ?_, intercalate_splitVars s⟩⟩
  · simp [splitVars, split_ne_nil]
  · simp [splitVars, split_length]
  · intro t ht
    simp only [splitVars, List.mem_map] at ht
    obtain ⟨u, hu, rfl⟩ := ht
    exact split_no_sep ',' s.data u hu

/-- C9, the claim fails: two stores that assign different ids to the same candidate give
the same response, whose body is the slug `s1` alone: the response does not carry the
id. -/
theorem C9_id_not_returned :
    (subscriptionHandler (stubCtx [] sampleSub "id-1" none 10)
        (mkRequest MethodPost [] "sub-one") (Run.start ())).w
      = (subscriptionHandler (stubCtx [] sampleSub "id-2" none 10)
        (mkRequest MethodPost [] "sub-one") (Run.start ())).w ∧
    ((stubCtx [] sampleSub "id-1" none 10).dbc.AddSubscription () sampleSub).id = "id-1" ∧
    ((stubCtx [] sampleSub "id-2" none 10).dbc.AddSubscription () sampleSub).id = "id-2" ∧
    (subscriptionHandler (stubCtx [] sampleSub "id-1" none 10)
        (mkRequest MethodPost [] "sub-one") (Run.start ())).w
      = { header := [], status := some StatusCreated, body := [Chunk.raw "s1"] } := by
  decide

/-- C9, amended. Create (POST of `subscriptionHandler`) on success: for every decoded
candidate `S` for which the add call of the store succeeds, the response is
`201 Created` and its body is exactly the slug of the record as the add call leaves it,
which is the slug of `S` whenever the store does not rewrite the slug; the response
has nothing else in it, the id the store returns is discarded. The add call, with `S`,
is the only store call. -/
theorem C9_create_success {σ : Type} (ctx : Ctx σ) (r : Request) (db : σ)
    (S : Subscription)
    (hM : r.Method = MethodPost) (hD : ctx.jsonDecode r.Body = (S, none))
    (hA : (ctx.dbc.AddSubscription db S).err = none) :
    (subscriptionHandler ctx r (Run.start db)).w
      = { header := [], status := some StatusCreated,
          body := [Chunk.raw (ctx.dbc.AddSubscription db S).s.Slug] } ∧
    ((ctx.dbc.AddSubscription db S).s.Slug = S.Slug →
      (subscriptionHandler ctx r (Run.start db)).w.body = [Chunk.raw S.Slug]) ∧
    (subscriptionHandler ctx r (Run.start db)).calls = [DbCall.AddSubscription S] ∧
    (subscriptionHandler ctx r (Run.start db)).db = (ctx.dbc.AddSubscription db S).db := by
  have hne1 : ¬ (MethodPost = MethodGet) := by decide
  have hne2 : ¬ (MethodPost = MethodPut) := by decide
  simp [subscriptionHandler, hM, hne1, hne2, hD, hA, Run.start, Run.record,
    ResponseWriter.fresh, ResponseWriter.WriteHeader, ResponseWriter.Write,
    ResponseWriter.writeChunk]

/-- Witness of C9, amended: the in-memory store accepts a new slug; the body of the
response is the slug. -/
theorem C9_create_success_witness :
    (subscriptionHandler memCtx (mkRequest MethodPost [] "sub-one") (Run.start [])).w
      = { header := [], status := some StatusCreated, body := [Chunk.raw "s1"] } :=
  (C9_create_success memCtx (mkRequest MethodPost [] "sub-one") [] sampleSub rfl rfl rfl).1

/-- C10, the code at the failing input: a GET by a slug the store does not hold is
answered with `404 Not Found` and the error text, and after it the encoding of the
record the failed lookup returned (the zero record) is written to the same response,
after the content type in the header map has been set to JSON. The GET by id on the same store answer writes the error text
only. -/
theorem C10_get_by_slug_failure_writes_record :
    memClient.SubscriptionBySlug [sampleSub] "nope" = (Subscription.zero, some errNotFound) ∧
    memClient.SubscriptionById [sampleSub] "nope" = (Subscription.zero, some errNotFound) ∧
    (subscriptionsBySlugHandler memCtx (mkRequest MethodGet [("slug", "nope")] "")
        (Run.start [sampleSub])).w
      = { header := [("X-Content-Type-Options", "nosniff"),
                     ("Content-Type", "application/json; charset=utf-8")],
          status := some StatusNotFound,
          body := [Chunk.raw "Subscription not found\n",
                   Chunk.json (Payload.one Subscription.zero)] } ∧
    (subscriptionByIDHandler memCtx (mkRequest MethodGet [("id", "nope")] "")
        (Run.start [sampleSub])).w
      = { header := [("Content-Type", "text/plain; charset=utf-8"),
                     ("X-Content-Type-Options", "nosniff")],
          status := some StatusNotFound,
          body := [Chunk.raw "Subscription not found\n"] } := by
  decide

end Notifications
